import Mathlib

/-!
# Ascendia — a shallow embedding of the ownership-scoped CRUD core

This file embeds the data model and the request handlers of the Ascendia
study-notebook application (Django) as pure Lean functions over an explicit
relational store, and proves the behavioural properties stated in the
specification.

Conventions of the embedding:
* Database rows are Lean structures; tables are lists of rows; the relational
  store is a `Store` record holding the four tables (`workspace/models.py`,
  `notes/models.py`).
* `auto_now` timestamps are naturals; a handler that performs a `save()`
  receives the current time `now` as an explicit argument and writes it into
  the `updatedAt` column, exactly as Django's `auto_now=True` does.
* `get_object_or_404(Model, id=i, user=u)` and the `get_queryset` filters
  become `List.find?` with the conjunctive predicate `id == i && userId == u`;
  a handler whose lookup fails returns `none` (the 404 outcome).
* Auto-increment primary keys and `uuid4` tokens are passed in as explicit
  arguments, since they are produced by the database / standard library.
-/

namespace Ascendia

/-- A row of the `workspace_notebook` table (`workspace/models.py`, `Notebook`). -/
structure NotebookRow where
  id : Nat
  userId : Nat
  title : String
  description : Option String
  color : String
  isFavorite : Bool
  updatedAt : Nat
deriving Repr, DecidableEq

/-- A row of the `notes_note` table (`notes/models.py`, `Note`). -/
structure NoteRow where
  id : Nat
  notebookId : Nat
  userId : Nat
  title : String
  content : String
  isPinned : Bool
  order : Int
  updatedAt : Nat
deriving Repr, DecidableEq

/-- A row of the `notes_tag` table (`notes/models.py`, `Tag`). -/
structure TagRow where
  id : Nat
  name : String
  userId : Nat
  color : String
deriving Repr, DecidableEq

/-- A row of the `notes_notetag` association table (`notes/models.py`, `NoteTag`). -/
structure NoteTagRow where
  noteId : Nat
  tagId : Nat
deriving Repr, DecidableEq

/-- The relational store: the four tables the notebook/note/tag views touch. -/
structure Store where
  notebooks : List NotebookRow
  notes : List NoteRow
  tags : List TagRow
  noteTags : List NoteTagRow
deriving Repr, DecidableEq

/-- Ownership-scoped notebook lookup:
`Notebook.objects.filter(user=u).get(id=i)` /
`get_object_or_404(Notebook, id=i, user=u)`. -/
def Store.findNotebook (s : Store) (notebookId userId : Nat) : Option NotebookRow :=
  s.notebooks.find? (fun nb => nb.id == notebookId && nb.userId == userId)

/-- Ownership-scoped note lookup (`Note.objects.filter(user=u)` + pk). -/
def Store.findNote (s : Store) (noteId userId : Nat) : Option NoteRow :=
  s.notes.find? (fun n => n.id == noteId && n.userId == userId)

/-- Ownership-scoped tag lookup (`get_object_or_404(Tag, id=i, user=u)`). -/
def Store.findTag (s : Store) (tagId userId : Nat) : Option TagRow :=
  s.tags.find? (fun t => t.id == tagId && t.userId == userId)

/-! ## Profile-derived properties (`users/models.py`) -/

/-- `Profile.whatsapp_link` (`users/models.py`): Python's `if self.whatsapp:`
is false for both `None` and the empty string; otherwise the stored number is
cleaned to digits-and-plus characters and the plus signs are removed
(`cleaned.replace('+', '')`) before being appended to the click-to-chat URL. -/
def whatsapp_link : Option String → Option String
  | none => none
  | some w =>
    if w = "" then none
    else
      let cleaned := (w.toList.filter (fun c => c.isDigit || c == '+')).asString
      let number := (cleaned.toList.filter (fun c => !(c == '+'))).asString
      some ("https://wa.me/" ++ number)

/-- The spec's description of the link tail: exactly the digit characters of
the stored string, in order, every non-digit (including the leading plus)
removed.  Stated separately from `whatsapp_link` so the two can be compared. -/
def specWhatsappDigits (w : String) : String :=
  (w.toList.filter Char.isDigit).asString

/-! ## Notebook views (`workspace/views.py`) -/

/-- The data of a bound `NotebookForm` (`workspace/forms.py`): title,
optional description, colour choice and favourite checkbox. -/
structure NotebookFormData where
  title : String
  description : Option String
  color : String
  isFavorite : Bool
deriving Repr, DecidableEq

/-- `NotebookDetailView`: the object is resolved against the owner-scoped
queryset; a miss is a 404 (`none`). -/
def notebookDetailView (s : Store) (notebookId userId : Nat) : Option NotebookRow :=
  s.findNotebook notebookId userId

/-- A Django `save()` on a notebook instance: an UPDATE by primary key that
writes every column, `updated_at` refreshed by `auto_now`. -/
def Store.saveNotebook (s : Store) (row : NotebookRow) : Store :=
  { s with notebooks := s.notebooks.map (fun r => if r.id == row.id then row else r) }

/-- A Django `save()` on a note instance (UPDATE by primary key, `auto_now`). -/
def Store.saveNote (s : Store) (row : NoteRow) : Store :=
  { s with notes := s.notes.map (fun r => if r.id == row.id then row else r) }

/-- `NotebookUpdateView`: owner-scoped lookup, then the form fields are
written back and the instance saved (`updated_at` set to `now` by
`auto_now`). -/
def notebookUpdateView (s : Store) (notebookId userId : Nat)
    (f : NotebookFormData) (now : Nat) : Option Store :=
  match s.findNotebook notebookId userId with
  | none => none
  | some nb =>
    some (s.saveNotebook { nb with
      title := f.title, description := f.description,
      color := f.color, isFavorite := f.isFavorite, updatedAt := now })

/-- Deleting a notebook row: `on_delete=CASCADE` removes every note that
references it, and deleting those notes in turn removes their `NoteTag`
association rows. -/
def Store.deleteNotebookCascade (s : Store) (notebookId : Nat) : Store :=
  { s with
    notebooks := s.notebooks.filter (fun nb => !(nb.id == notebookId)),
    notes := s.notes.filter (fun n => !(n.notebookId == notebookId)),
    noteTags := s.noteTags.filter
      (fun nt => !(s.notes.any (fun n => n.id == nt.noteId && n.notebookId == notebookId))) }

/-- `NotebookDeleteView`: owner-scoped lookup, then cascade delete. -/
def notebookDeleteView (s : Store) (notebookId userId : Nat) : Option Store :=
  match s.findNotebook notebookId userId with
  | none => none
  | some _ => some (s.deleteNotebookCascade notebookId)

/-- `NotebookToggleFavoriteView.post`: owner-scoped `get_object_or_404`,
flip `is_favorite`, `save()`; the response (JSON branch or message branch)
reports the new flag value. -/
def notebookToggleFavoriteView (s : Store) (notebookId userId now : Nat) :
    Option (Store × Bool) :=
  match s.findNotebook notebookId userId with
  | none => none
  | some nb =>
    let newVal := !nb.isFavorite
    some (s.saveNotebook { nb with isFavorite := newVal, updatedAt := now }, newVal)

/-! ## Note views (`notes/views.py`) -/

/-- `NoteDetailView`: owner-scoped queryset, 404 on a miss. -/
def noteDetailView (s : Store) (noteId userId : Nat) : Option NoteRow :=
  s.findNote noteId userId

/-- `NoteUpdateView` (form fields `title`, `content`): owner-scoped lookup,
write the two fields back, save with `auto_now`. -/
def noteUpdateView (s : Store) (noteId userId : Nat)
    (title content : String) (now : Nat) : Option Store :=
  match s.findNote noteId userId with
  | none => none
  | some n =>
    some (s.saveNote { n with title := title, content := content, updatedAt := now })

/-- Deleting one note row: `on_delete=CASCADE` on `NoteTag.note` removes its
association rows; nothing else is touched. -/
def Store.deleteNoteCascade (s : Store) (noteId : Nat) : Store :=
  { s with
    notes := s.notes.filter (fun n => !(n.id == noteId)),
    noteTags := s.noteTags.filter (fun nt => !(nt.noteId == noteId)) }

/-- `NoteDeleteView`: owner-scoped lookup, then delete with cascade to the
association rows. -/
def noteDeleteView (s : Store) (noteId userId : Nat) : Option Store :=
  match s.findNote noteId userId with
  | none => none
  | some _ => some (s.deleteNoteCascade noteId)

/-- `NoteTogglePinView.post`: owner-scoped lookup, flip `is_pinned`, save;
the response reports the new flag value. -/
def noteTogglePinView (s : Store) (noteId userId now : Nat) :
    Option (Store × Bool) :=
  match s.findNote noteId userId with
  | none => none
  | some n =>
    let newVal := !n.isPinned
    some (s.saveNote { n with isPinned := newVal, updatedAt := now }, newVal)

/-! ## Tag views (`notes/views.py`) -/

/-- Outcome reported by `TagCreateView.form_valid`: either a fresh tag was
created (success message) or a tag of that name already existed for the user
(info message, redirect without insert). -/
inductive TagCreateOutcome where
  | created (t : TagRow)
  | alreadyExists (existingName : String)
deriving Repr, DecidableEq

/-- `TagCreateView.form_valid`: look for an existing tag with the submitted
name owned by the requesting user (`Tag.objects.filter(name=..., user=...)
.first()`); if found, redirect without inserting; otherwise insert a new row
(primary key `newId` assigned by the database). -/
def tagCreateView (s : Store) (userId : Nat) (name color : String) (newId : Nat) :
    Store × TagCreateOutcome :=
  match s.tags.find? (fun t => t.name == name && t.userId == userId) with
  | some t => (s, .alreadyExists t.name)
  | none =>
    let t : TagRow := { id := newId, name := name, userId := userId, color := color }
    ({ s with tags := s.tags ++ [t] }, .created t)

/-- `NoteAddTagView.post`: owner-scoped lookups of both the note and the tag
(either miss is a 404), then `NoteTag.objects.get_or_create`. -/
def noteAddTagView (s : Store) (noteId userId tagId : Nat) : Option Store :=
  match s.findNote noteId userId with
  | none => none
  | some _ =>
    match s.findTag tagId userId with
    | none => none
    | some _ =>
      if s.noteTags.any (fun nt => nt.noteId == noteId && nt.tagId == tagId) then
        some s
      else
        some { s with noteTags := s.noteTags ++ [{ noteId := noteId, tagId := tagId }] }

/-- `NoteRemoveTagView.post`: owner-scoped lookups of note and tag, then
`NoteTag.objects.filter(note=..., tag=...).delete()` (idempotent). -/
def noteRemoveTagView (s : Store) (noteId userId tagId : Nat) : Option Store :=
  match s.findNote noteId userId with
  | none => none
  | some _ =>
    match s.findTag tagId userId with
    | none => none
    | some _ =>
      some { s with
        noteTags := s.noteTags.filter (fun nt => !(nt.noteId == noteId && nt.tagId == tagId)) }

/-! ## Authentication flow (`users/views_auth.py`, `users/views.py`) -/

/-- `CustomLoginView.form_valid`: `request.POST.get('remember_me')` yields
`None` when the field is absent; Python's `if not remember_me:` is taken for
`None` and for the empty string, giving `set_expiry(0)` (end of browsing
session); any other value gives `set_expiry(1209600)` (14 days). -/
def loginSessionExpiry (rememberMe : Option String) : Nat :=
  match rememberMe with
  | none => 0
  | some v => if v = "" then 0 else 1209600

/-- A row of the `auth_user` table, restricted to the columns the signup
flow decides on. -/
structure UserRow where
  id : Nat
  username : String
  email : String
deriving Repr, DecidableEq

/-- The authentication-relevant state: the user table and the requesting
session (logged-in user, session expiry in seconds). -/
structure AuthState where
  users : List UserRow
  sessionUserId : Option Nat
  sessionExpiry : Option Nat
deriving Repr, DecidableEq

/-- Response of the signup / login entry points as far as the embedding
needs: a redirect to the home page, or the rendered form. -/
inductive AuthResponse where
  | redirectHome
  | renderForm
deriving Repr, DecidableEq

/-- `SignUpView.dispatch`: an already-authenticated requester is redirected
home before any form processing; otherwise the request proceeds to the form
(rendering or `form_valid`, not modelled further here). -/
def signUpDispatch (st : AuthState) : AuthState × AuthResponse :=
  if st.sessionUserId.isSome then (st, .redirectHome)
  else (st, .renderForm)

/-- Modelled from the spec: the URL configuration that mounts
`CustomLoginView` (the project `urls.py`) is not among the sources, and
`CustomLoginView` itself does not set `redirect_authenticated_user`; per the
spec, an already-authenticated visitor to the login entry point is redirected
home without reprocessing. -/
def loginDispatch (st : AuthState) : AuthState × AuthResponse :=
  if st.sessionUserId.isSome then (st, .redirectHome)
  else (st, .renderForm)

/-! ## Profile update and avatar endpoint (`users/views.py`, `users/models.py`) -/

/-- The profile columns the profile/avatar views decide on
(`users/models.py`, `Profile`): the stored avatar file name (nullable) and
the WhatsApp number (nullable, here the empty string doubles as unset, as it
does for a Django `CharField` bound from a form). -/
structure ProfileRow where
  userId : Nat
  avatar : Option String
  whatsapp : String
deriving Repr, DecidableEq

/-- Whether a whatsapp value begins with the `+` of a country code. -/
def startsWithPlus (w : String) : Bool :=
  match w.toList with
  | c :: _ => c == '+'
  | [] => false

/-- The number of digit characters of a whatsapp value, i.e. its length
after stripping every separator. -/
def digitCount (w : String) : Nat :=
  (w.toList.filter Char.isDigit).length

/-- Modelled from the spec: `ProfileUpdateForm.clean_whatsapp` is imported by
`users/views.py` and exercised by `users/tests.py`, but the form class is
absent from the sources.  Per the spec, the field is optional; a non-empty
value must begin with `+` and contain at least 10 digits after stripping
separators, otherwise a field-level validation error is raised. -/
def cleanWhatsapp (w : String) : Except String String :=
  if w = "" then .ok w
  else if !(startsWithPlus w) then .error "whatsapp: must start with country code"
  else if digitCount w < 10 then
    .error "whatsapp: must contain at least 10 digits"
  else .ok w

/-- The POST branch of `profile_view` restricted to the whatsapp field: if
the bound forms validate, `profile.whatsapp` is overwritten with the cleaned
value and saved; on a validation error nothing is saved and the form is
re-rendered with the field error.  The returned `Bool` is `true` on the
success redirect. -/
def profileViewPost (p : ProfileRow) (whatsappField : String) : ProfileRow × Bool :=
  match cleanWhatsapp whatsappField with
  | .ok v => ({ p with whatsapp := v }, true)
  | .error _ => (p, false)

/-- The media-storage URL of a stored file; the storage backend is a platform
service, so the URL shape is abstracted to a fixed prefix. -/
def mediaUrl (name : String) : String := "/media/" ++ name

/-- `Profile.avatar_url` (`users/models.py`): the file URL when an avatar is
stored, `None` otherwise. -/
def avatar_url (p : ProfileRow) : Option String :=
  p.avatar.map mediaUrl

/-- The request data `update_avatar` reads: the HTTP method and the two POST
fields (`request.POST.get` yields `none` for an absent field). -/
structure AvatarRequest where
  method : String
  deleteAvatar : Option String
  avatarCropped : Option String
deriving Repr, DecidableEq

/-- The per-user state `update_avatar` manipulates: the profile row and the
set of files in media storage (by name). -/
structure AvatarState where
  profile : ProfileRow
  files : List String
deriving Repr, DecidableEq

/-- The JSON responses of `update_avatar`, by shape. -/
inductive AvatarResponse where
  /-- 405 `{'success': False, 'error': 'Invalid method'}` -/
  | methodNotAllowed
  /-- 200 `{'success': True, 'message': ..., 'avatar_url': None}` -/
  | removed
  /-- 200 `{'success': True, 'message': ..., 'avatar_url': url}` -/
  | updated (avatarUrl : String)
  /-- 400 `{'success': False, 'error': 'No avatar data provided'}` -/
  | noData
  /-- 500 `{'success': False, 'error': str(e)}` from the catch-all handler -/
  | serverError (error : String)
deriving Repr, DecidableEq

/-- The HTTP status attached to each `update_avatar` response. -/
def AvatarResponse.status : AvatarResponse → Nat
  | .methodNotAllowed => 405
  | .removed => 200
  | .updated _ => 200
  | .noData => 400
  | .serverError _ => 500

/-- Python's `str.startswith`, over character lists. -/
def charsHaveLead : List Char → List Char → Bool
  | [], _ => true
  | _ :: _, [] => false
  | p :: ps, c :: cs => p == c && charsHaveLead ps cs

/-- Python's `s.startswith(lead)`. -/
def pyStartswith (s lead : String) : Bool :=
  charsHaveLead lead.toList s.toList

/-- The number of positions where the (non-empty) separator matches; for
`';base64,'` matches cannot overlap, so this is Python's occurrence count. -/
def occurrences (sep : List Char) : List Char → Nat
  | [] => 0
  | c :: cs => (if charsHaveLead sep (c :: cs) then 1 else 0) + occurrences sep cs

/-- Split at the first occurrence of the separator, if any. -/
def breakOnSep (sep : List Char) : List Char → Option (List Char × List Char)
  | [] => none
  | c :: cs =>
    if charsHaveLead sep (c :: cs) then some ([], (c :: cs).drop sep.length)
    else
      match breakOnSep sep cs with
      | some (pre, post) => some (c :: pre, post)
      | none => none

/-- `format, imgstr = avatar_cropped.split(';base64,')`: Python's `split`
yields one part more than there are separator occurrences, and unpacking
into two names raises `ValueError` for any other arity; the view's catch-all
turns that into the 500 response. -/
def splitDataUri (s : String) : Except String (String × String) :=
  match breakOnSep (";base64,".toList) s.toList with
  | some (pre, post) =>
    if occurrences (";base64,".toList) post == 0 then
      .ok (pre.asString, post.asString)
    else .error "ValueError: too many values to unpack"
  | none => .error "ValueError: not enough values to unpack"

/-- `format.split('/')[-1]`: the trailing segment after the last separator
(the whole string when the separator does not occur). -/
def lastSegmentAfter (sep : Char) (s : String) : String :=
  (s.toList.foldl (fun acc c => if c == sep then [] else acc ++ [c]) []).asString

/-- Deleting the stored avatar file from media storage
(`profile.avatar.delete(save=False)` removes the file without updating the
database row). -/
def AvatarState.deleteStoredFile (st : AvatarState) : List String :=
  match st.profile.avatar with
  | some old => st.files.filter (fun f => !(f == old))
  | none => st.files

/-- `update_avatar` (`users/views.py`): 405 for a non-POST; then, in order,
the `delete_avatar == 'true'` branch (remove file, clear the reference),
the `avatar_cropped` data-URI branch (delete the old file, split the URI,
decode, save under `avatar_<username>_<uuid>.<ext>`), else 400.  The
`ValueError` the split can raise inside the `try` is answered by the
catch-all 500 — after the old file was already deleted, as in the source.
The `uuid4()` hex token is the explicit argument `token`. -/
def update_avatar (st : AvatarState) (req : AvatarRequest)
    (username token : String) : AvatarState × AvatarResponse :=
  if !(req.method == "POST") then (st, .methodNotAllowed)
  else
    if req.deleteAvatar == some "true" then
      match st.profile.avatar with
      | some _ =>
        ({ profile := { st.profile with avatar := none },
           files := st.deleteStoredFile }, .removed)
      | none => (st, .removed)
    else
      match req.avatarCropped with
      | some dataUri =>
        if pyStartswith dataUri "data:image" then
          let files1 := st.deleteStoredFile
          match splitDataUri dataUri with
          | .error e => ({ profile := st.profile, files := files1 }, .serverError e)
          | .ok (fmt, _img) =>
            let ext := lastSegmentAfter '/' fmt
            let fileName := "avatar_" ++ username ++ "_" ++ token ++ "." ++ ext
            ({ profile := { st.profile with avatar := some fileName },
               files := files1 ++ [fileName] }, .updated (mediaUrl fileName))
        else (st, .noData)
      | none => (st, .noData)

/-- The per-user tag-name uniqueness invariant declared by
`Tag.Meta.unique_together = ['name', 'user']`. -/
def tagsUnique (s : Store) : Prop :=
  s.tags.Pairwise (fun a b => ¬(a.name = b.name ∧ a.userId = b.userId))

instance (s : Store) : Decidable (tagsUnique s) := by
  unfold tagsUnique
  exact List.instDecidablePairwise s.tags

/-! ## Helper lemmas -/

theorem char_clean_digit (c : Char) :
    (!(c == '+') && (c.isDigit || c == '+')) = c.isDigit := by
  by_cases h : c = '+'
  · subst h; decide
  · have hb : (c == '+') = false := by simp [h]
    simp [hb]

theorem whatsapp_filter_digits (l : List Char) :
    (l.filter (fun c => c.isDigit || c == '+')).filter (fun c => !(c == '+'))
      = l.filter Char.isDigit := by
  rw [List.filter_filter]
  exact List.filter_congr (fun c _ => char_clean_digit c)

theorem find?_split {α : Type} {l : List α} {f : α → Bool} {x : α}
    (h : l.find? f = some x) :
    ∃ pre post, l = pre ++ x :: post ∧ ∀ y ∈ pre, f y = false := by
  induction l with
  | nil => simp [List.find?] at h
  | cons a t ih =>
    rw [List.find?_cons] at h
    by_cases hf : f a
    · refine ⟨[], t, ?_, by simp⟩
      simp only [hf, if_pos] at h
      simp only [Option.some.injEq] at h
      simp [h]
    · simp only [hf, if_neg, Bool.false_eq_true, if_false] at h
      obtain ⟨pre, post, h1, h2⟩ := ih h
      refine ⟨a :: pre, post, by simp [h1], ?_⟩
      intro y hy
      rcases List.mem_cons.mp hy with rfl | hy'
      · simpa using hf
      · exact h2 y hy'

theorem find?_pre_cons {α : Type} (pre post : List α) (f : α → Bool) (z : α)
    (hpre : ∀ y ∈ pre, f y = false) (hz : f z = true) :
    (pre ++ z :: post).find? f = some z := by
  induction pre with
  | nil => simp [List.find?_cons, hz]
  | cons a t ih =>
    have ha : f a = false := hpre a (List.mem_cons_self a t)
    simp only [List.cons_append, List.find?_cons, ha]
    exact ih (fun y hy => hpre y (List.mem_cons_of_mem a hy))

theorem map_save_split {α : Type} (key : α → Nat) (pre post : List α) (x v : α)
    (hnd : ((pre ++ x :: post).map key).Nodup) :
    (pre ++ x :: post).map (fun r => if key r == key x then v else r)
      = pre ++ v :: post := by
  rw [List.map_append, List.map_cons] at hnd ⊢
  obtain ⟨hpre, hcons, hdisj⟩ := List.nodup_append.mp hnd
  have hxpre : key x ∉ pre.map key := fun hmem => hdisj hmem (List.mem_cons_self _ _)
  have hxpost : key x ∉ post.map key := (List.nodup_cons.mp hcons).1
  have h1 : pre.map (fun r => if key r == key x then v else r) = pre := by
    have := List.map_congr_left (l := pre)
      (f := fun r => if key r == key x then v else r) (g := fun r => r) ?_
    · simpa using this
    · intro a ha
      have : key a ≠ key x := fun h => hxpre (h ▸ List.mem_map_of_mem key ha)
      simp [this]
  have h2 : post.map (fun r => if key r == key x then v else r) = post := by
    have := List.map_congr_left (l := post)
      (f := fun r => if key r == key x then v else r) (g := fun r => r) ?_
    · simpa using this
    · intro a ha
      have : key a ≠ key x := fun h => hxpost (h ▸ List.mem_map_of_mem key ha)
      simp [this]
  rw [h1, h2]
  simp

/-! ## Claim theorems -/

/-- C5: for every stored whatsapp string `w`, `whatsapp_link` equals
`https://wa.me/` followed by exactly the digit characters of `w` in order
(all non-digits, the leading plus included, removed); in particular the link
for `+55 11 98765-4321` is `https://wa.me/5511987654321`, and the link is
`none` when the stored string is empty or unset. -/
theorem whatsapp_link_spec (w : String) (hw : w ≠ "") :
    whatsapp_link (some w) = some ("https://wa.me/" ++ specWhatsappDigits w) ∧
    whatsapp_link (some "+55 11 98765-4321") = some "https://wa.me/5511987654321" ∧
    whatsapp_link (some "") = none ∧
    whatsapp_link none = none := by
  refine ⟨?_, by decide, rfl, rfl⟩
  show (if w = "" then none
    else
      let cleaned := (w.toList.filter (fun c => c.isDigit || c == '+')).asString
      let number := (cleaned.toList.filter (fun c => !(c == '+'))).asString
      some ("https://wa.me/" ++ number))
    = some ("https://wa.me/" ++ specWhatsappDigits w)
  rw [if_neg hw]
  show some ("https://wa.me/" ++
      ((w.toList.filter (fun c => c.isDigit || c == '+')).filter
        (fun c => !(c == '+'))).asString)
    = some ("https://wa.me/" ++ specWhatsappDigits w)
  rw [whatsapp_filter_digits]
  rfl

/-- C5 witness: the general clause evaluated at the spec's example number. -/
theorem whatsapp_link_spec_witness :
    whatsapp_link (some "+55 11 98765-4321")
        = some ("https://wa.me/" ++ specWhatsappDigits "+55 11 98765-4321") ∧
    whatsapp_link (some "+55 11 98765-4321") = some "https://wa.me/5511987654321" ∧
    whatsapp_link (some "") = none ∧
    whatsapp_link none = none :=
  whatsapp_link_spec "+55 11 98765-4321" (by decide)

/-- C6 as stated is false on the code: a request that carries the
`remember_me` field with an empty value is a request where the field is
present, yet `if not remember_me:` in `CustomLoginView.form_valid` treats it
as falsy and sets the session expiry to 0, not 1,209,600. -/
theorem login_expiry_counterexample :
    loginSessionExpiry (some "") ≠ 1209600 := by decide

/-- C6 (amended): on every successful login the session expiry is 0 when the
`remember_me` field is absent or carries an empty (falsy) value, and exactly
1,209,600 seconds when it is present with a non-empty value; no other expiry
value is ever chosen. -/
theorem login_expiry_policy (rm : Option String) :
    loginSessionExpiry none = 0 ∧
    loginSessionExpiry (some "") = 0 ∧
    (∀ v : String, v ≠ "" → loginSessionExpiry (some v) = 1209600) ∧
    (loginSessionExpiry rm = 0 ∨ loginSessionExpiry rm = 1209600) := by
  refine ⟨rfl, rfl, ?_, ?_⟩
  · intro v hv
    simp [loginSessionExpiry, hv]
  · cases rm with
    | none => exact Or.inl rfl
    | some v =>
      by_cases h : v = "" <;> simp [loginSessionExpiry, h]

/-- C6 witness: a checked remember-me box (the browser sends `on`) yields the
14-day expiry. -/
theorem login_expiry_policy_witness :
    loginSessionExpiry (some "on") = 1209600 :=
  (login_expiry_policy (some "on")).2.2.1 "on" (by decide)

/-- C10: the duplicate check in `TagCreateView.form_valid` compares names by
exact string equality: the same user creating `Exam` and then `exam` gets two
created outcomes and two distinct rows, while re-creating `Exam` is absorbed
as already-existing. -/
theorem tag_create_case_sensitive :
    (tagCreateView ⟨[], [], [], []⟩ 1 "Exam" "#06b6d4" 1).2
        = .created ⟨1, "Exam", 1, "#06b6d4"⟩ ∧
    tagCreateView (tagCreateView ⟨[], [], [], []⟩ 1 "Exam" "#06b6d4" 1).1
        1 "exam" "#06b6d4" 2
      = (⟨[], [], [⟨1, "Exam", 1, "#06b6d4"⟩, ⟨2, "exam", 1, "#06b6d4"⟩], []⟩,
         .created ⟨2, "exam", 1, "#06b6d4"⟩) ∧
    tagCreateView (tagCreateView ⟨[], [], [], []⟩ 1 "Exam" "#06b6d4" 1).1
        1 "Exam" "#06b6d4" 2
      = ((tagCreateView ⟨[], [], [], []⟩ 1 "Exam" "#06b6d4" 1).1,
         .alreadyExists "Exam") := by
  refine ⟨?_, ?_, ?_⟩ <;> decide

/-- C7: a request by an already-authenticated user to the signup or the
login entry point is answered by a redirect to the home page, with the user
table and the session left untouched (the returned state is the input
state). -/
theorem authenticated_entry_redirect (st : AuthState)
    (h : st.sessionUserId.isSome = true) :
    signUpDispatch st = (st, .redirectHome) ∧
    loginDispatch st = (st, .redirectHome) := by
  constructor <;> simp [signUpDispatch, loginDispatch, h]

/-- C7 witness: a logged-in user (session bound to user 1) hitting both
entry points. -/
theorem authenticated_entry_redirect_witness :
    signUpDispatch ⟨[⟨1, "alice", "a@example.com"⟩], some 1, none⟩
        = (⟨[⟨1, "alice", "a@example.com"⟩], some 1, none⟩, .redirectHome) ∧
    loginDispatch ⟨[⟨1, "alice", "a@example.com"⟩], some 1, none⟩
        = (⟨[⟨1, "alice", "a@example.com"⟩], some 1, none⟩, .redirectHome) :=
  authenticated_entry_redirect ⟨[⟨1, "alice", "a@example.com"⟩], some 1, none⟩ rfl

/-- C9: a profile update with an empty whatsapp field is always accepted;
a non-empty value is accepted (and stored) exactly when it begins with `+`
and contains at least 10 digits after stripping separators; otherwise the
submission is rejected with a field error and the profile row is unchanged. -/
theorem profile_whatsapp_validation (p : ProfileRow) (w : String) :
    profileViewPost p "" = ({ p with whatsapp := "" }, true) ∧
    (w ≠ "" → startsWithPlus w = true → 10 ≤ digitCount w →
      profileViewPost p w = ({ p with whatsapp := w }, true)) ∧
    (w ≠ "" → (startsWithPlus w = false ∨ digitCount w < 10) →
      profileViewPost p w = (p, false)) := by
  refine ⟨?_, ?_, ?_⟩
  · simp [profileViewPost, cleanWhatsapp]
  · intro hne hplus hlen
    simp [profileViewPost, cleanWhatsapp, hne, hplus, Nat.not_lt.mpr hlen]
  · intro hne hbad
    rcases hbad with hplus | hlen
    · simp [profileViewPost, cleanWhatsapp, hne, hplus]
    · by_cases hplus : startsWithPlus w = true
      · simp [profileViewPost, cleanWhatsapp, hne, hplus, hlen]
      · simp [profileViewPost, cleanWhatsapp, hne,
          (Bool.not_eq_true _).mp hplus]

/-- C9 witness: the spec's valid number is stored; the same number without
its country code is rejected without a change to the row. -/
theorem profile_whatsapp_validation_witness :
    profileViewPost ⟨1, none, ""⟩ "+55 11 98765-4321"
        = (⟨1, none, "+55 11 98765-4321"⟩, true) ∧
    profileViewPost ⟨1, none, ""⟩ "11 98765-4321" = (⟨1, none, ""⟩, false) :=
  ⟨(profile_whatsapp_validation ⟨1, none, ""⟩ "+55 11 98765-4321").2.1
      (by decide) (by decide) (by decide),
   (profile_whatsapp_validation ⟨1, none, ""⟩ "11 98765-4321").2.2
      (by decide) (Or.inl (by decide))⟩

/-- An ownership-scoped notebook lookup misses whenever no row combines the
requested id with the acting user — whether the id is absent or the row is
owned by someone else. -/
theorem findNotebook_eq_none {s : Store} {nid u : Nat}
    (h : ∀ nb ∈ s.notebooks, nb.id = nid → nb.userId ≠ u) :
    s.findNotebook nid u = none := by
  apply List.find?_eq_none.mpr
  intro nb hmem hp
  simp only [Bool.and_eq_true, beq_iff_eq] at hp
  exact h nb hmem hp.1 hp.2

/-- Scoped note lookup misses under the same condition. -/
theorem findNote_eq_none {s : Store} {nid u : Nat}
    (h : ∀ n ∈ s.notes, n.id = nid → n.userId ≠ u) :
    s.findNote nid u = none := by
  apply List.find?_eq_none.mpr
  intro n hmem hp
  simp only [Bool.and_eq_true, beq_iff_eq] at hp
  exact h n hmem hp.1 hp.2

/-- Scoped tag lookup misses under the same condition. -/
theorem findTag_eq_none {s : Store} {tid u : Nat}
    (h : ∀ t ∈ s.tags, t.id = tid → t.userId ≠ u) :
    s.findTag tid u = none := by
  apply List.find?_eq_none.mpr
  intro t hmem hp
  simp only [Bool.and_eq_true, beq_iff_eq] at hp
  exact h t hmem hp.1 hp.2

/-- C1: when every notebook (resp. note, tag) carrying the requested id is
owned by a user other than `u` — which also covers the case of the id not
existing at all — the read, edit and delete handlers acting as `u` all answer
not-found (`none`), and so do the tag-association handlers resolving a note
or a tag: the outcome of an ownership mismatch is identical to non-existence. -/
theorem ownership_scoped_not_found (s : Store) (u : Nat) :
    (∀ nid, (∀ nb ∈ s.notebooks, nb.id = nid → nb.userId ≠ u) →
      ∀ f now, notebookDetailView s nid u = none ∧
        notebookUpdateView s nid u f now = none ∧
        notebookDeleteView s nid u = none) ∧
    (∀ nid, (∀ n ∈ s.notes, n.id = nid → n.userId ≠ u) →
      ∀ t c now tid, noteDetailView s nid u = none ∧
        noteUpdateView s nid u t c now = none ∧
        noteDeleteView s nid u = none ∧
        noteAddTagView s nid u tid = none ∧
        noteRemoveTagView s nid u tid = none) ∧
    (∀ tid, (∀ t ∈ s.tags, t.id = tid → t.userId ≠ u) →
      ∀ nid, s.findTag tid u = none ∧
        noteAddTagView s nid u tid = none ∧
        noteRemoveTagView s nid u tid = none) := by
  refine ⟨?_, ?_, ?_⟩
  · intro nid h f now
    have hf := findNotebook_eq_none h
    exact ⟨hf, by simp [notebookUpdateView, hf], by simp [notebookDeleteView, hf]⟩
  · intro nid h t c now tid
    have hf := findNote_eq_none h
    exact ⟨hf, by simp [noteUpdateView, hf], by simp [noteDeleteView, hf],
      by simp [noteAddTagView, hf], by simp [noteRemoveTagView, hf]⟩
  · intro tid h nid
    have hf := findTag_eq_none h
    refine ⟨hf, ?_, ?_⟩
    · cases hn : s.findNote nid u <;> simp [noteAddTagView, hn, hf]
    · cases hn : s.findNote nid u <;> simp [noteRemoveTagView, hn, hf]

/-- C1 witness: a store whose only notebook, note and tag belong to user 2;
user 1's reads, edits, deletes and tag associations all answer not-found. -/
theorem ownership_scoped_not_found_witness :
    notebookDetailView
        ⟨[⟨1, 2, "Biology", none, "#06b6d4", false, 0⟩],
         [⟨1, 1, 2, "Mitosis", "", false, 0, 0⟩],
         [⟨1, "Exam", 2, "#06b6d4"⟩], []⟩ 1 1 = none ∧
    notebookUpdateView
        ⟨[⟨1, 2, "Biology", none, "#06b6d4", false, 0⟩],
         [⟨1, 1, 2, "Mitosis", "", false, 0, 0⟩],
         [⟨1, "Exam", 2, "#06b6d4"⟩], []⟩ 1 1 ⟨"X", none, "#10b981", true⟩ 9 = none ∧
    notebookDeleteView
        ⟨[⟨1, 2, "Biology", none, "#06b6d4", false, 0⟩],
         [⟨1, 1, 2, "Mitosis", "", false, 0, 0⟩],
         [⟨1, "Exam", 2, "#06b6d4"⟩], []⟩ 1 1 = none ∧
    noteDetailView
        ⟨[⟨1, 2, "Biology", none, "#06b6d4", false, 0⟩],
         [⟨1, 1, 2, "Mitosis", "", false, 0, 0⟩],
         [⟨1, "Exam", 2, "#06b6d4"⟩], []⟩ 1 1 = none ∧
    noteDeleteView
        ⟨[⟨1, 2, "Biology", none, "#06b6d4", false, 0⟩],
         [⟨1, 1, 2, "Mitosis", "", false, 0, 0⟩],
         [⟨1, "Exam", 2, "#06b6d4"⟩], []⟩ 1 1 = none ∧
    Store.findTag
        ⟨[⟨1, 2, "Biology", none, "#06b6d4", false, 0⟩],
         [⟨1, 1, 2, "Mitosis", "", false, 0, 0⟩],
         [⟨1, "Exam", 2, "#06b6d4"⟩], []⟩ 1 1 = none ∧
    noteAddTagView
        ⟨[⟨1, 2, "Biology", none, "#06b6d4", false, 0⟩],
         [⟨1, 1, 2, "Mitosis", "", false, 0, 0⟩],
         [⟨1, "Exam", 2, "#06b6d4"⟩], []⟩ 1 1 1 = none := by
  obtain ⟨hnb, hn, ht⟩ := ownership_scoped_not_found
    ⟨[⟨1, 2, "Biology", none, "#06b6d4", false, 0⟩],
     [⟨1, 1, 2, "Mitosis", "", false, 0, 0⟩],
     [⟨1, "Exam", 2, "#06b6d4"⟩], []⟩ 1
  obtain ⟨h1, h2, h3⟩ := hnb 1 (by decide) ⟨"X", none, "#10b981", true⟩ 9
  obtain ⟨h4, _, h5, _, _⟩ := hn 1 (by decide) "" "" 0 1
  obtain ⟨h6, h7, _⟩ := ht 1 (by decide) 1
  exact ⟨h1, h2, h3, h4, h5, h6, h7⟩

/-- C3: creating a tag whose name the acting user already owns is a no-op
success — the store is returned unchanged and the caller is told the tag
already exists; tag creation preserves the per-user `(name, user)` uniqueness
invariant; and a user with no tag of that name (in particular a different
user re-using another user's name) gets a fresh, distinct row appended. -/
theorem tag_create_dedup (s : Store) (u u' newId newId' : Nat) (n c c' : String) :
    ((∃ t ∈ s.tags, t.name = n ∧ t.userId = u) →
      tagCreateView s u n c newId = (s, .alreadyExists n)) ∧
    (tagsUnique s → tagsUnique (tagCreateView s u n c newId).1) ∧
    ((∀ t ∈ s.tags, ¬(t.name = n ∧ t.userId = u')) →
      tagCreateView s u' n c' newId' =
        ({ s with tags := s.tags ++ [⟨newId', n, u', c'⟩] },
         .created ⟨newId', n, u', c'⟩)) := by
  refine ⟨?_, ?_, ?_⟩
  · rintro ⟨t, ht, hn, hu⟩
    cases hf : s.tags.find? (fun t => t.name == n && t.userId == u) with
    | none =>
      exfalso
      have := List.find?_eq_none.mp hf t ht
      simp [hn, hu] at this
    | some t' =>
      have hp := List.find?_some hf
      simp only [Bool.and_eq_true, beq_iff_eq] at hp
      simp [tagCreateView, hf, hp.1]
  · intro huniq
    cases hf : s.tags.find? (fun t => t.name == n && t.userId == u) with
    | some t' => simpa [tagCreateView, hf] using huniq
    | none =>
      have habs : ∀ t ∈ s.tags, ¬(t.name = n ∧ t.userId = u) := by
        intro t ht hcon
        have := List.find?_eq_none.mp hf t ht
        simp [hcon.1, hcon.2] at this
      simp only [tagCreateView, hf, tagsUnique]
      rw [List.pairwise_append]
      refine ⟨huniq, List.pairwise_singleton _ _, ?_⟩
      intro a ha b hb
      simp only [List.mem_singleton] at hb
      subst hb
      rintro ⟨h1, h2⟩
      exact habs a ha ⟨h1, h2⟩
  · intro habs
    have hf : s.tags.find? (fun t => t.name == n && t.userId == u') = none := by
      apply List.find?_eq_none.mpr
      intro t ht hp
      simp only [Bool.and_eq_true, beq_iff_eq] at hp
      exact habs t ht hp
    simp [tagCreateView, hf]

/-- C3 witness: user 1 re-creating the existing `Exam` tag is a no-op;
uniqueness survives the call; user 2 creating `Exam` gets a second row. -/
theorem tag_create_dedup_witness :
    tagCreateView ⟨[], [], [⟨1, "Exam", 1, "#06b6d4"⟩], []⟩ 1 "Exam" "#ef4444" 2
        = (⟨[], [], [⟨1, "Exam", 1, "#06b6d4"⟩], []⟩, .alreadyExists "Exam") ∧
    tagsUnique (tagCreateView ⟨[], [], [⟨1, "Exam", 1, "#06b6d4"⟩], []⟩
        1 "Exam" "#ef4444" 2).1 ∧
    tagCreateView ⟨[], [], [⟨1, "Exam", 1, "#06b6d4"⟩], []⟩ 2 "Exam" "#ef4444" 2
        = (⟨[], [], [⟨1, "Exam", 1, "#06b6d4"⟩, ⟨2, "Exam", 2, "#ef4444"⟩], []⟩,
           .created ⟨2, "Exam", 2, "#ef4444"⟩) := by
  obtain ⟨hdup, huniq, hnew⟩ := tag_create_dedup
    ⟨[], [], [⟨1, "Exam", 1, "#06b6d4"⟩], []⟩ 1 2 2 2 "Exam" "#ef4444" "#ef4444"
  exact ⟨hdup ⟨⟨1, "Exam", 1, "#06b6d4"⟩, by decide, rfl, rfl⟩,
         huniq (by decide), hnew (by decide)⟩

/-- C4: deleting an owned notebook removes it and every note referencing it
while leaving the tag table and unrelated notes untouched; deleting an owned
note removes only that note and its association rows — the notebook table and
the tag table are returned verbatim. -/
theorem delete_cascade (s : Store) (u nid noteId : Nat) :
    ((s.findNotebook nid u).isSome = true →
      ∃ s', notebookDeleteView s nid u = some s' ∧
        s'.notebooks = s.notebooks.filter (fun nb => !(nb.id == nid)) ∧
        (∀ n ∈ s'.notes, n.notebookId ≠ nid) ∧
        (∀ n ∈ s.notes, n.notebookId ≠ nid → n ∈ s'.notes) ∧
        s'.tags = s.tags) ∧
    ((s.findNote noteId u).isSome = true →
      ∃ s', noteDeleteView s noteId u = some s' ∧
        s'.notebooks = s.notebooks ∧
        s'.tags = s.tags ∧
        (∀ n ∈ s'.notes, n.id ≠ noteId) ∧
        (∀ n ∈ s.notes, n.id ≠ noteId → n ∈ s'.notes) ∧
        s'.noteTags = s.noteTags.filter (fun nt => !(nt.noteId == noteId))) := by
  constructor
  · intro hs
    obtain ⟨nb, hnb⟩ := Option.isSome_iff_exists.mp hs
    refine ⟨s.deleteNotebookCascade nid, by simp [notebookDeleteView, hnb], rfl, ?_, ?_, rfl⟩
    · intro n hn
      have := (List.mem_filter.mp hn).2
      simpa using this
    · intro n hn hne
      exact List.mem_filter.mpr ⟨hn, by simpa using hne⟩
  · intro hs
    obtain ⟨note, hnote⟩ := Option.isSome_iff_exists.mp hs
    refine ⟨s.deleteNoteCascade noteId, by simp [noteDeleteView, hnote], rfl, rfl, ?_, ?_, rfl⟩
    · intro n hn
      have := (List.mem_filter.mp hn).2
      simpa using this
    · intro n hn hne
      exact List.mem_filter.mpr ⟨hn, by simpa using hne⟩

/-- C4 witness: a notebook with two notes (one tagged); deleting the
notebook sweeps the notes, deleting one note leaves notebook and tag rows. -/
theorem delete_cascade_witness :
    (∃ s', notebookDeleteView
        ⟨[⟨1, 1, "Biology", none, "#06b6d4", false, 0⟩],
         [⟨1, 1, 1, "Mitosis", "", false, 0, 0⟩, ⟨2, 1, 1, "Meiosis", "", false, 0, 0⟩],
         [⟨1, "Exam", 1, "#06b6d4"⟩], [⟨1, 1⟩]⟩ 1 1 = some s' ∧
      s'.notebooks = List.filter (fun nb => !(nb.id == 1))
        [⟨1, 1, "Biology", none, "#06b6d4", false, 0⟩] ∧
      (∀ n ∈ s'.notes, n.notebookId ≠ 1) ∧
      (∀ n ∈ [(⟨1, 1, 1, "Mitosis", "", false, 0, 0⟩ : NoteRow),
              ⟨2, 1, 1, "Meiosis", "", false, 0, 0⟩], n.notebookId ≠ 1 → n ∈ s'.notes) ∧
      s'.tags = [⟨1, "Exam", 1, "#06b6d4"⟩]) ∧
    (∃ s', noteDeleteView
        ⟨[⟨1, 1, "Biology", none, "#06b6d4", false, 0⟩],
         [⟨1, 1, 1, "Mitosis", "", false, 0, 0⟩, ⟨2, 1, 1, "Meiosis", "", false, 0, 0⟩],
         [⟨1, "Exam", 1, "#06b6d4"⟩], [⟨1, 1⟩]⟩ 1 1 = some s' ∧
      s'.notebooks = [⟨1, 1, "Biology", none, "#06b6d4", false, 0⟩] ∧
      s'.tags = [⟨1, "Exam", 1, "#06b6d4"⟩] ∧
      (∀ n ∈ s'.notes, n.id ≠ 1) ∧
      (∀ n ∈ [(⟨1, 1, 1, "Mitosis", "", false, 0, 0⟩ : NoteRow),
              ⟨2, 1, 1, "Meiosis", "", false, 0, 0⟩], n.id ≠ 1 → n ∈ s'.notes) ∧
      s'.noteTags = List.filter (fun nt => !(nt.noteId == 1)) [(⟨1, 1⟩ : NoteTagRow)]) := by
  obtain ⟨hnb, hnote⟩ := delete_cascade
    ⟨[⟨1, 1, "Biology", none, "#06b6d4", false, 0⟩],
     [⟨1, 1, 1, "Mitosis", "", false, 0, 0⟩, ⟨2, 1, 1, "Meiosis", "", false, 0, 0⟩],
     [⟨1, "Exam", 1, "#06b6d4"⟩], [⟨1, 1⟩]⟩ 1 1 1
  exact ⟨hnb (by decide), hnote (by decide)⟩

/-- Decomposed effect of `NotebookToggleFavoriteView.post` on an owned
notebook: the table splits around the toggled row, which is written back with
the flag flipped and `updated_at` refreshed, and the response carries the new
flag. -/
theorem notebookToggle_split (s : Store) (nid u now : Nat) (nb : NotebookRow)
    (h : s.findNotebook nid u = some nb)
    (hnd : (s.notebooks.map (fun r => r.id)).Nodup) :
    ∃ pre post,
      s.notebooks = pre ++ nb :: post ∧
      (∀ y ∈ pre, (y.id == nid && y.userId == u) = false) ∧
      notebookToggleFavoriteView s nid u now =
        some ({ s with notebooks :=
          pre ++ { nb with isFavorite := !nb.isFavorite, updatedAt := now } :: post },
          !nb.isFavorite) := by
  obtain ⟨pre, post, hl, hpre⟩ := find?_split h
  refine ⟨pre, post, hl, hpre, ?_⟩
  have hmap : s.notebooks.map
      (fun r => if r.id == nb.id then
        { nb with isFavorite := !nb.isFavorite, updatedAt := now } else r)
      = pre ++ { nb with isFavorite := !nb.isFavorite, updatedAt := now } :: post := by
    rw [hl]
    exact map_save_split (fun r => r.id) pre post nb _ (by rw [← hl]; exact hnd)
  simp only [notebookToggleFavoriteView, h, Store.saveNotebook]
  rw [show ({ nb with isFavorite := !nb.isFavorite, updatedAt := now } : NotebookRow).id
        = nb.id from rfl] at *
  rw [hmap]

/-- Decomposed effect of `NoteTogglePinView.post` on an owned note. -/
theorem noteToggle_split (s : Store) (nid u now : Nat) (n : NoteRow)
    (h : s.findNote nid u = some n)
    (hnd : (s.notes.map (fun r => r.id)).Nodup) :
    ∃ pre post,
      s.notes = pre ++ n :: post ∧
      (∀ y ∈ pre, (y.id == nid && y.userId == u) = false) ∧
      noteTogglePinView s nid u now =
        some ({ s with notes :=
          pre ++ { n with isPinned := !n.isPinned, updatedAt := now } :: post },
          !n.isPinned) := by
  obtain ⟨pre, post, hl, hpre⟩ := find?_split h
  refine ⟨pre, post, hl, hpre, ?_⟩
  have hmap : s.notes.map
      (fun r => if r.id == n.id then
        { n with isPinned := !n.isPinned, updatedAt := now } else r)
      = pre ++ { n with isPinned := !n.isPinned, updatedAt := now } :: post := by
    rw [hl]
    exact map_save_split (fun r => r.id) pre post n _ (by rw [← hl]; exact hnd)
  simp only [noteTogglePinView, h, Store.saveNote]
  rw [show ({ n with isPinned := !n.isPinned, updatedAt := now } : NoteRow).id
        = n.id from rfl] at *
  rw [hmap]

/-- C2 is false as stated: the toggle goes through a full Django `save()`,
and `updated_at` is an `auto_now` column, so a single toggle does not leave
every other stored field unchanged — at time 7 the stored `updated_at` of the
toggled notebook moves from 0 to 7, not only `is_favorite`. -/
theorem toggle_counterexample :
    notebookToggleFavoriteView
        ⟨[⟨1, 1, "Biology", none, "#06b6d4", false, 0⟩], [], [], []⟩ 1 1 7
      ≠ some (⟨[⟨1, 1, "Biology", none, "#06b6d4", true, 0⟩], [], [], []⟩, true) := by
  decide

/-- C2 (amended): toggling the favourite (resp. pin) flag of an owned
notebook (resp. note) rewrites exactly the toggled row — the flag flipped and
`updated_at` refreshed by `auto_now`, all other columns and all other rows
verbatim — reports the new flag value in the response, and applying the
toggle twice returns the flag to its original value. -/
theorem toggle_semantics (s : Store) (nbId ntId u now now' : Nat)
    (nb : NotebookRow) (n : NoteRow) :
    (s.findNotebook nbId u = some nb → (s.notebooks.map (fun r => r.id)).Nodup →
      ∃ pre post,
        s.notebooks = pre ++ nb :: post ∧
        notebookToggleFavoriteView s nbId u now =
          some ({ s with notebooks :=
            pre ++ { nb with isFavorite := !nb.isFavorite, updatedAt := now } :: post },
            !nb.isFavorite) ∧
        ((notebookToggleFavoriteView s nbId u now).bind
            (fun r => notebookToggleFavoriteView r.1 nbId u now')).map Prod.snd
          = some nb.isFavorite) ∧
    (s.findNote ntId u = some n → (s.notes.map (fun r => r.id)).Nodup →
      ∃ pre post,
        s.notes = pre ++ n :: post ∧
        noteTogglePinView s ntId u now =
          some ({ s with notes :=
            pre ++ { n with isPinned := !n.isPinned, updatedAt := now } :: post },
            !n.isPinned) ∧
        ((noteTogglePinView s ntId u now).bind
            (fun r => noteTogglePinView r.1 ntId u now')).map Prod.snd
          = some n.isPinned) := by
  constructor
  · intro h hnd
    obtain ⟨pre, post, hl, hpre, heq⟩ := notebookToggle_split s nbId u now nb h hnd
    have hp := List.find?_some h
    refine ⟨pre, post, hl, heq, ?_⟩
    have hfind' : Store.findNotebook
        { s with notebooks :=
          pre ++ { nb with isFavorite := !nb.isFavorite, updatedAt := now } :: post }
        nbId u = some { nb with isFavorite := !nb.isFavorite, updatedAt := now } := by
      show (pre ++ { nb with isFavorite := !nb.isFavorite, updatedAt := now } :: post).find?
          (fun r => r.id == nbId && r.userId == u) = _
      exact find?_pre_cons pre post _ _ hpre hp
    rw [heq]
    simp [notebookToggleFavoriteView, hfind']
  · intro h hnd
    obtain ⟨pre, post, hl, hpre, heq⟩ := noteToggle_split s ntId u now n h hnd
    have hp := List.find?_some h
    refine ⟨pre, post, hl, heq, ?_⟩
    have hfind' : Store.findNote
        { s with notes :=
          pre ++ { n with isPinned := !n.isPinned, updatedAt := now } :: post }
        ntId u = some { n with isPinned := !n.isPinned, updatedAt := now } := by
      show (pre ++ { n with isPinned := !n.isPinned, updatedAt := now } :: post).find?
          (fun r => r.id == ntId && r.userId == u) = _
      exact find?_pre_cons pre post _ _ hpre hp
    rw [heq]
    simp [noteTogglePinView, hfind']

/-- C2 witness: a one-notebook, one-note store toggled at times 7 and 9. -/
theorem toggle_semantics_witness :
    (∃ pre post,
      ([(⟨1, 1, "Biology", none, "#06b6d4", false, 0⟩ : NotebookRow)]
        = pre ++ (⟨1, 1, "Biology", none, "#06b6d4", false, 0⟩ : NotebookRow) :: post) ∧
      notebookToggleFavoriteView
          ⟨[⟨1, 1, "Biology", none, "#06b6d4", false, 0⟩],
           [⟨1, 1, 1, "Mitosis", "", false, 0, 0⟩], [], []⟩ 1 1 7
        = some (⟨pre ++ ⟨1, 1, "Biology", none, "#06b6d4", true, 7⟩ :: post,
                 [⟨1, 1, 1, "Mitosis", "", false, 0, 0⟩], [], []⟩, true) ∧
      ((notebookToggleFavoriteView
          ⟨[⟨1, 1, "Biology", none, "#06b6d4", false, 0⟩],
           [⟨1, 1, 1, "Mitosis", "", false, 0, 0⟩], [], []⟩ 1 1 7).bind
        (fun r => notebookToggleFavoriteView r.1 1 1 9)).map Prod.snd = some false) ∧
    (∃ pre post,
      ([(⟨1, 1, 1, "Mitosis", "", false, 0, 0⟩ : NoteRow)]
        = pre ++ (⟨1, 1, 1, "Mitosis", "", false, 0, 0⟩ : NoteRow) :: post) ∧
      noteTogglePinView
          ⟨[⟨1, 1, "Biology", none, "#06b6d4", false, 0⟩],
           [⟨1, 1, 1, "Mitosis", "", false, 0, 0⟩], [], []⟩ 1 1 7
        = some (⟨[⟨1, 1, "Biology", none, "#06b6d4", false, 0⟩],
                 pre ++ ⟨1, 1, 1, "Mitosis", "", true, 0, 7⟩ :: post, [], []⟩, true) ∧
      ((noteTogglePinView
          ⟨[⟨1, 1, "Biology", none, "#06b6d4", false, 0⟩],
           [⟨1, 1, 1, "Mitosis", "", false, 0, 0⟩], [], []⟩ 1 1 7).bind
        (fun r => noteTogglePinView r.1 1 1 9)).map Prod.snd = some false) :=
  ⟨(toggle_semantics
      ⟨[⟨1, 1, "Biology", none, "#06b6d4", false, 0⟩],
       [⟨1, 1, 1, "Mitosis", "", false, 0, 0⟩], [], []⟩ 1 1 1 7 9
      ⟨1, 1, "Biology", none, "#06b6d4", false, 0⟩
      ⟨1, 1, 1, "Mitosis", "", false, 0, 0⟩).1 (by decide) (by decide),
   (toggle_semantics
      ⟨[⟨1, 1, "Biology", none, "#06b6d4", false, 0⟩],
       [⟨1, 1, 1, "Mitosis", "", false, 0, 0⟩], [], []⟩ 1 1 1 7 9
      ⟨1, 1, "Biology", none, "#06b6d4", false, 0⟩
      ⟨1, 1, 1, "Mitosis", "", false, 0, 0⟩).2 (by decide) (by decide)⟩

/-- C8: the avatar endpoint answers 405 to every non-POST; 400 when the POST
carries neither `delete_avatar=true` nor a `data:image` data URI; a data-URI
upload removes the previously stored file and saves the new image under the
freshly generated `avatar_<username>_<uuid>.<ext>` name (counted exactly once
when the generated name is fresh), reporting the new URL; `delete_avatar=true`
clears the stored reference and removes the file, after which `avatar_url`
reads absent; a `ValueError` inside the handler is answered by the structured
500 response, and every response carries one of the statuses 200/400/405/500
— never a raw crash. -/
theorem update_avatar_contract (st : AvatarState) (req : AvatarRequest)
    (username token : String) :
    (req.method ≠ "POST" → update_avatar st req username token = (st, .methodNotAllowed)) ∧
    (req.method = "POST" → req.deleteAvatar ≠ some "true" →
      (∀ d, req.avatarCropped = some d → pyStartswith d "data:image" = false) →
      update_avatar st req username token = (st, .noData)) ∧
    (req.method = "POST" → req.deleteAvatar ≠ some "true" →
      ∀ d fmt img, req.avatarCropped = some d → pyStartswith d "data:image" = true →
        splitDataUri d = .ok (fmt, img) →
        update_avatar st req username token =
          ({ profile := { st.profile with avatar := some ("avatar_" ++ username ++ "_" ++ token ++ "." ++ lastSegmentAfter '/' fmt) },
             files := st.deleteStoredFile ++ ["avatar_" ++ username ++ "_" ++ token ++ "." ++ lastSegmentAfter '/' fmt] },
           .updated (mediaUrl
             ("avatar_" ++ username ++ "_" ++ token ++ "." ++ lastSegmentAfter '/' fmt))) ∧
        (("avatar_" ++ username ++ "_" ++ token ++ "." ++ lastSegmentAfter '/' fmt) ∉ st.files →
          ((update_avatar st req username token).1.files.count
            ("avatar_" ++ username ++ "_" ++ token ++ "." ++ lastSegmentAfter '/' fmt)) = 1)) ∧
    (∀ old, st.profile.avatar = some old → old ∉ st.deleteStoredFile) ∧
    (req.method = "POST" → req.deleteAvatar = some "true" →
      (update_avatar st req username token).1.profile.avatar = none ∧
      (update_avatar st req username token).2 = .removed ∧
      avatar_url (update_avatar st req username token).1.profile = none ∧
      (update_avatar st req username token).1.files = st.deleteStoredFile) ∧
    (req.method = "POST" → req.deleteAvatar ≠ some "true" →
      ∀ d e, req.avatarCropped = some d → pyStartswith d "data:image" = true →
        splitDataUri d = .error e →
        update_avatar st req username token
          = (⟨st.profile, st.deleteStoredFile⟩, .serverError e)) ∧
    ((update_avatar st req username token).2.status ∈ ([200, 400, 405, 500] : List Nat)) := by
  have hdel : ∀ h : req.deleteAvatar ≠ some "true",
      (req.deleteAvatar == some "true") = false := by
    intro h
    simpa using h
  refine ⟨?_, ?_, ?_, ?_, ?_, ?_, ?_⟩
  · intro hm
    have : (req.method == "POST") = false := by simpa using hm
    simp [update_avatar, this]
  · intro hm hd hc
    cases hc' : req.avatarCropped with
    | none => simp [update_avatar, hm, hdel hd, hc']
    | some d => simp [update_avatar, hm, hdel hd, hc', hc d hc']
  · intro hm hd d fmt img hc hlead hsplit
    constructor
    · simp [update_avatar, hm, hdel hd, hc, hlead, hsplit]
    · intro hfresh
      have hsub : st.deleteStoredFile.Sublist st.files := by
        unfold AvatarState.deleteStoredFile
        cases st.profile.avatar with
        | none => exact List.Sublist.refl _
        | some old => exact List.filter_sublist _
      have hz : st.files.count
          ("avatar_" ++ username ++ "_" ++ token ++ "." ++ lastSegmentAfter '/' fmt) = 0 :=
        List.count_eq_zero.mpr hfresh
      have hle := hsub.count_le
        ("avatar_" ++ username ++ "_" ++ token ++ "." ++ lastSegmentAfter '/' fmt)
      simp [update_avatar, hm, hdel hd, hc, hlead, hsplit, List.count_append]
      omega
  · intro old hold
    unfold AvatarState.deleteStoredFile
    rw [hold]
    intro hmem
    have := (List.mem_filter.mp hmem).2
    simp at this
  · intro hm hd
    have hm' : (req.method == "POST") = true := by simpa using hm
    have hd' : (req.deleteAvatar == some "true") = true := by simpa using hd
    cases ha : st.profile.avatar with
    | none =>
      refine ⟨?_, ?_, ?_, ?_⟩ <;>
        simp [update_avatar, hm', hd', ha, avatar_url, AvatarState.deleteStoredFile]
    | some old =>
      refine ⟨?_, ?_, ?_, ?_⟩ <;>
        simp [update_avatar, hm', hd', ha, avatar_url, AvatarState.deleteStoredFile]
  · intro hm hd d e hc hlead hsplit
    simp [update_avatar, hm, hdel hd, hc, hlead, hsplit]
  · by_cases hm : (req.method == "POST") = true
    · by_cases hd : (req.deleteAvatar == some "true") = true
      · cases ha : st.profile.avatar <;>
          simp [update_avatar, hm, hd, ha, AvatarResponse.status]
      · have hd' : (req.deleteAvatar == some "true") = false := by
          simpa using hd
        cases hc : req.avatarCropped with
        | none => simp [update_avatar, hm, hd', hc, AvatarResponse.status]
        | some d =>
          by_cases hlead : pyStartswith d "data:image" = true
          · cases hsplit : splitDataUri d with
            | ok p =>
              obtain ⟨fmt, img⟩ := p
              simp [update_avatar, hm, hd', hc, hlead, hsplit, AvatarResponse.status]
            | error e =>
              simp [update_avatar, hm, hd', hc, hlead, hsplit, AvatarResponse.status]
          · have : pyStartswith d "data:image" = false := by simpa using hlead
            simp [update_avatar, hm, hd', hc, this, AvatarResponse.status]
    · have : (req.method == "POST") = false := by simpa using hm
      simp [update_avatar, this, AvatarResponse.status]

/-- C8 witness: a profile holding `old.png`; a GET, an empty POST, a cropped
upload, a delete request and a malformed data URI, each answered as the
contract states. -/
theorem update_avatar_contract_witness :
    update_avatar ⟨⟨1, some "old.png", ""⟩, ["old.png"]⟩ ⟨"GET", none, none⟩ "alice" "t0"
      = (⟨⟨1, some "old.png", ""⟩, ["old.png"]⟩, .methodNotAllowed) ∧
    update_avatar ⟨⟨1, some "old.png", ""⟩, ["old.png"]⟩ ⟨"POST", none, none⟩ "alice" "t0"
      = (⟨⟨1, some "old.png", ""⟩, ["old.png"]⟩, .noData) ∧
    update_avatar ⟨⟨1, some "old.png", ""⟩, ["old.png"]⟩
        ⟨"POST", none, some "data:image/png;base64,AAAA"⟩ "alice" "t0"
      = (⟨⟨1, some "avatar_alice_t0.png", ""⟩, ["avatar_alice_t0.png"]⟩,
         .updated "/media/avatar_alice_t0.png") ∧
    ((update_avatar ⟨⟨1, some "old.png", ""⟩, ["old.png"]⟩
        ⟨"POST", none, some "data:image/png;base64,AAAA"⟩ "alice" "t0").1.files.count
      "avatar_alice_t0.png" = 1) ∧
    ("old.png" ∉ AvatarState.deleteStoredFile ⟨⟨1, some "old.png", ""⟩, ["old.png"]⟩) ∧
    ((update_avatar ⟨⟨1, some "old.png", ""⟩, ["old.png"]⟩
        ⟨"POST", some "true", none⟩ "alice" "t0").1.profile.avatar = none ∧
     (update_avatar ⟨⟨1, some "old.png", ""⟩, ["old.png"]⟩
        ⟨"POST", some "true", none⟩ "alice" "t0").2 = .removed ∧
     avatar_url (update_avatar ⟨⟨1, some "old.png", ""⟩, ["old.png"]⟩
        ⟨"POST", some "true", none⟩ "alice" "t0").1.profile = none ∧
     (update_avatar ⟨⟨1, some "old.png", ""⟩, ["old.png"]⟩
        ⟨"POST", some "true", none⟩ "alice" "t0").1.files
       = AvatarState.deleteStoredFile ⟨⟨1, some "old.png", ""⟩, ["old.png"]⟩) ∧
    update_avatar ⟨⟨1, some "old.png", ""⟩, ["old.png"]⟩
        ⟨"POST", none, some "data:image/png"⟩ "alice" "t0"
      = (⟨⟨1, some "old.png", ""⟩, []⟩,
         .serverError "ValueError: not enough values to unpack") :=
  ⟨(update_avatar_contract ⟨⟨1, some "old.png", ""⟩, ["old.png"]⟩
      ⟨"GET", none, none⟩ "alice" "t0").1 (by decide),
   (update_avatar_contract ⟨⟨1, some "old.png", ""⟩, ["old.png"]⟩
      ⟨"POST", none, none⟩ "alice" "t0").2.1 rfl (by decide)
      (fun d h => Option.noConfusion h),
   ((update_avatar_contract ⟨⟨1, some "old.png", ""⟩, ["old.png"]⟩
      ⟨"POST", none, some "data:image/png;base64,AAAA"⟩ "alice" "t0").2.2.1 rfl (by decide)
      "data:image/png;base64,AAAA" "data:image/png" "AAAA" rfl (by decide) rfl).1,
   ((update_avatar_contract ⟨⟨1, some "old.png", ""⟩, ["old.png"]⟩
      ⟨"POST", none, some "data:image/png;base64,AAAA"⟩ "alice" "t0").2.2.1 rfl (by decide)
      "data:image/png;base64,AAAA" "data:image/png" "AAAA" rfl (by decide) rfl).2
      (by decide),
   (update_avatar_contract ⟨⟨1, some "old.png", ""⟩, ["old.png"]⟩
      ⟨"POST", none, none⟩ "alice" "t0").2.2.2.1 "old.png" rfl,
   (update_avatar_contract ⟨⟨1, some "old.png", ""⟩, ["old.png"]⟩
      ⟨"POST", some "true", none⟩ "alice" "t0").2.2.2.2.1 rfl rfl,
   (update_avatar_contract ⟨⟨1, some "old.png", ""⟩, ["old.png"]⟩
      ⟨"POST", none, some "data:image/png"⟩ "alice" "t0").2.2.2.2.2.1 rfl (by decide)
      "data:image/png" "ValueError: not enough values to unpack" rfl (by decide) rfl⟩

end Ascendia
